import Mathlib

/-!
Verification of the Intune profile-management client
(`src/intune_client/client.py`) against its specification.

The client is shallowly embedded: the injected credential is a function
from a scope list to an `Except` of an access token, the HTTP transport
is an environment function from a request to a (status, body) pair, and
every client method returns its result together with a trace of the
external calls it performed (token acquisitions and HTTP requests).
-/

/-- Model of a JSON value, the payload type of the client
(Python `Dict[str, Any]` with JSON-serializable values). -/
inductive Json where
  | null : Json
  | bool : Bool → Json
  | num : Int → Json
  | str : String → Json
  | arr : List Json → Json
  | obj : List (String × Json) → Json

/-- Escape of a single character inside a JSON string literal,
modelling Python `json.dumps` (92 is backslash, 34 is the double quote). -/
def jsonEscapeChar (ch : Char) : String :=
  if ch.toNat == 92 then String.mk [Char.ofNat 92, Char.ofNat 92]
  else if ch.toNat == 34 then String.mk [Char.ofNat 92, Char.ofNat 34]
  else String.singleton ch

/-- Escape of a string body for a JSON string literal. -/
def jsonEscape (s : String) : String :=
  String.join (s.data.map jsonEscapeChar)

/-- A JSON string literal: the escaped body between double quotes. -/
def jsonQuote (s : String) : String :=
  "\"" ++ jsonEscape s ++ "\""

mutual

/-- Model of Python `json.dumps` with its default separators
(item separator a comma and a space, key separator a colon and a space). -/
def Json.dumps : Json → String
  | .null => "null"
  | .bool b => if b then "true" else "false"
  | .num n => toString n
  | .str s => jsonQuote s
  | .arr xs => "[" ++ Json.dumpsArr xs ++ "]"
  | .obj kvs => "\x7b" ++ Json.dumpsObj kvs ++ "\x7d"

/-- Comma-and-space separated serializations of array elements. -/
def Json.dumpsArr : List Json → String
  | [] => ""
  | [x] => Json.dumps x
  | x :: y :: xs => Json.dumps x ++ ", " ++ Json.dumpsArr (y :: xs)

/-- Comma-and-space separated serializations of object members. -/
def Json.dumpsObj : List (String × Json) → String
  | [] => ""
  | [(k, v)] => jsonQuote k ++ ": " ++ Json.dumps v
  | (k, v) :: kv :: kvs =>
      jsonQuote k ++ ": " ++ Json.dumps v ++ ", " ++ Json.dumpsObj (kv :: kvs)

end

/-- The object returned by a credential: it carries the token string
(Python: the `.token` attribute of the result of `get_token`). -/
structure AccessToken where
  token : String

/-- An outbound HTTP request as built by `urllib.request.Request`:
URL, optional body (bytes, modelled as the serialized string),
method, and headers. -/
structure HttpRequest where
  url : String
  data : Option String
  method : String
  headers : List (String × String)

/-- One external call performed by the client: a token acquisition with
the scopes passed, or an HTTP request handed to the transport. -/
inductive Event where
  | tokenCall (scopes : List String)
  | httpCall (req : HttpRequest)

/-- The external world of the client: the HTTP transport, which returns a
status code and a body text for a request, and the behaviour of
`json.loads` on response bodies. -/
structure Env where
  response : HttpRequest → Nat × String
  jsonLoads : String → Json

/-- Outcome of `urllib.request.urlopen`: a success body, or a raised
`HTTPError` carrying the status code and the error body text. -/
inductive UrlOutcome where
  | ok (body : String)
  | httpError (code : Nat) (body : String)

/-- Model of `urllib.request.urlopen`: a response with a 2xx status is
returned, any other status is raised as an `HTTPError`. -/
def urlopen (env : Env) (req : HttpRequest) : UrlOutcome :=
  let r := env.response req
  if 200 ≤ r.1 ∧ r.1 < 300 then .ok r.2 else .httpError r.1 r.2

/-- An error surfacing from a client method: a credential failure
propagated unchanged, or the `RuntimeError` raised on an HTTP error
status, carrying its message and, as the chained cause, the original
`HTTPError`'s status code and body text. -/
inductive ClientError (ε : Type) where
  | credential (e : ε)
  | runtimeError (msg : String) (causeCode : Nat) (causeBody : String)

/-- The client: the stored credential (`get_token` as a function) and the
stored base endpoint (`IntuneClient.__init__`, lines 21-33). -/
structure IntuneClient (ε : Type) where
  _credential : List String → Except ε AccessToken
  _endpoint : String

/-- Model of Python `endpoint.rstrip("/")`: all trailing slash
characters are removed. -/
def rstripSlashes (s : String) : String :=
  String.mk ((s.data.reverse.dropWhile (fun ch => ch == '/')).reverse)

/-- `IntuneClient.__init__`: stores the credential and the endpoint with
trailing slashes stripped. -/
def IntuneClient.init (credential : List String → Except ε AccessToken)
    (endpoint : String) : IntuneClient ε :=
  ⟨credential, rstripSlashes endpoint⟩

/-- The default endpoint of the constructor. -/
def defaultEndpoint : String := "https://graph.microsoft.com/beta"

/-- The single scope the client requests tokens for. -/
def defaultScope : String := "https://graph.microsoft.com/.default"

def IntuneClient._get_token (c : IntuneClient ε) :
    Except ε String × List Event :=
  (match c._credential [defaultScope] with
    | .ok t => .ok t.token
    | .error e => .error e,
   [Event.tokenCall [defaultScope]])

def IntuneClient._headers (c : IntuneClient ε) :
    Except ε (List (String × String)) × List Event :=
  let r := c._get_token
  (r.1.map (fun token =>
      [("Authorization", "Bearer " ++ token),
       ("Content-Type", "application/json")]),
   r.2)

/-- `IntuneClient._request` (lines 46-59): serialize the payload when
present, build the request with fresh headers, perform it; on a 2xx
response parse a non-empty body as JSON (an empty body gives an empty
mapping); on an HTTP error status raise the `RuntimeError` with the
message built from the status code and the error body, chaining the
original error. A credential failure propagates before any HTTP call. -/
def IntuneClient._request (c : IntuneClient ε) (env : Env)
    (method url : String) (data : Option Json) :
    Except (ClientError ε) Json × List Event :=
  let body := data.map Json.dumps
  let h := c._headers
  match h.1 with
  | .error e => (.error (.credential e), h.2)
  | .ok headers =>
    let req : HttpRequest := ⟨url, body, method, headers⟩
    match urlopen env req with
    | .ok content =>
        (if content = "" then .ok (Json.obj []) else .ok (env.jsonLoads content),
         h.2 ++ [Event.httpCall req])
    | .httpError code msg =>
        (.error (.runtimeError ("Request failed: " ++ toString code ++ " " ++ msg)
            code msg),
         h.2 ++ [Event.httpCall req])

def IntuneClient.create_profile (c : IntuneClient ε) (env : Env)
    (profile_data : Json) : Except (ClientError ε) Json × List Event :=
  c._request env "POST" (c._endpoint ++ "/deviceManagement/deviceConfigurations")
    (some profile_data)

def IntuneClient.update_profile (c : IntuneClient ε) (env : Env)
    (profile_id : String) (profile_data : Json) :
    Except (ClientError ε) Json × List Event :=
  c._request env "PATCH"
    (c._endpoint ++ "/deviceManagement/deviceConfigurations/" ++ profile_id)
    (some profile_data)

def IntuneClient.delete_profile (c : IntuneClient ε) (env : Env)
    (profile_id : String) : Except (ClientError ε) Unit × List Event :=
  let r := c._request env "DELETE"
    (c._endpoint ++ "/deviceManagement/deviceConfigurations/" ++ profile_id) none
  (r.1.map (fun _ => ()), r.2)

def IntuneClient.modify_assignments (c : IntuneClient ε) (env : Env)
    (profile_id : String) (assignments : Json) :
    Except (ClientError ε) Json × List Event :=
  c._request env "POST"
    (c._endpoint ++ "/deviceManagement/deviceConfigurations/" ++ profile_id
      ++ "/assign")
    (some assignments)

/-- The headers the client attaches when the credential returned token T. -/
def bearerHeaders (T : String) : List (String × String) :=
  [("Authorization", "Bearer " ++ T), ("Content-Type", "application/json")]

/-- The scope lists of the token acquisitions in a trace, in order. -/
def tokenCallScopes : List Event → List (List String)
  | [] => []
  | Event.tokenCall s :: tr => s :: tokenCallScopes tr
  | Event.httpCall _ :: tr => tokenCallScopes tr

/-- The HTTP requests in a trace, in order. -/
def httpCallReqs : List Event → List HttpRequest
  | [] => []
  | Event.tokenCall _ :: tr => httpCallReqs tr
  | Event.httpCall r :: tr => r :: httpCallReqs tr

/-- The URLs of the HTTP requests in a trace, in order. -/
def httpCallUrls (tr : List Event) : List String :=
  (httpCallReqs tr).map HttpRequest.url

/-- The optional bodies of the HTTP requests in a trace, in order. -/
def httpCallDatas (tr : List Event) : List (Option String) :=
  (httpCallReqs tr).map HttpRequest.data

/-! ### Helper lemmas shared by the claims -/

/-- With a credential that yields token T for the default scope, a request
performed by `_request` produces exactly one token acquisition followed by
exactly one HTTP call, whose request carries the given URL, serialized
body, method, and the bearer headers. -/
theorem request_trace (c : IntuneClient ε) (env : Env) (T : String)
    (method url : String) (data : Option Json)
    (hc : c._credential [defaultScope] = .ok ⟨T⟩) :
    (c._request env method url data).2
      = [Event.tokenCall [defaultScope],
         Event.httpCall ⟨url, data.map Json.dumps, method, bearerHeaders T⟩] := by
  unfold IntuneClient._request
  simp only [IntuneClient._headers, IntuneClient._get_token, hc, Except.map,
    bearerHeaders]
  cases urlopen env ⟨url, data.map Json.dumps, method,
      [("Authorization", "Bearer " ++ T), ("Content-Type", "application/json")]⟩ <;>
    simp

/-- The head of what `dropWhile` leaves never satisfies the predicate. -/
theorem head_dropWhile_false (p : α → Bool) :
    ∀ (l : List α) (x : α), (l.dropWhile p).head? = some x → p x = false := by
  intro l
  induction l with
  | nil => intro x h; simp [List.dropWhile] at h
  | cons a tl ih =>
      intro x h
      by_cases hp : p a
      · rw [List.dropWhile_cons_of_pos hp] at h
        exact ih x h
      · rw [List.dropWhile_cons_of_neg hp] at h
        simp at h
        rw [← h]
        simpa using hp

/-- With a credential that yields token T, the result of `_request` is
determined by the transport's (status, body) answer for the request the
client builds: parse on 2xx, `RuntimeError` otherwise. -/
theorem request_result (c : IntuneClient ε) (env : Env) (T : String)
    (method url : String) (data : Option Json) (S : Nat) (B : String)
    (hc : c._credential [defaultScope] = .ok ⟨T⟩)
    (hresp : env.response ⟨url, data.map Json.dumps, method, bearerHeaders T⟩
      = (S, B)) :
    (c._request env method url data).1
      = if 200 ≤ S ∧ S < 300 then
          (if B = "" then .ok (Json.obj []) else .ok (env.jsonLoads B))
        else
          .error (.runtimeError ("Request failed: " ++ toString S ++ " " ++ B) S B) := by
  unfold IntuneClient._request
  simp only [IntuneClient._headers, IntuneClient._get_token, hc, Except.map,
    bearerHeaders] at *
  by_cases hS : 200 ≤ S ∧ S < 300 <;> simp [urlopen, hresp, hS]

/-! ### Concrete fixtures used by the witnesses -/

def okCredential : List String → Except Unit AccessToken := fun _ => .ok ⟨"tok"⟩

def testClient : IntuneClient Unit := IntuneClient.init okCredential "https://unit.test"

def badCredential : List String → Except String AccessToken := fun _ => .error "boom"

def badClient : IntuneClient String := IntuneClient.init badCredential "https://unit.test"

def constEnv (S : Nat) (B : String) : Env := ⟨fun _ => (S, B), fun _ => Json.null⟩

/-! ### The claims -/

/-- Claim C1: for every HTTP response with a non-2xx status code S and error
body text B, each of the four public operations fails with a `RuntimeError`
whose message is "Request failed: " followed by S, a space, and B, and the
original HTTP error (status code and body) is retained as the chained cause. -/
theorem non2xx_fails_with_request_failed (c : IntuneClient ε) (env : Env)
    (T : String) (S : Nat) (B : String) (D A : Json) (P : String)
    (hc : c._credential [defaultScope] = .ok ⟨T⟩)
    (hresp : ∀ req, env.response req = (S, B))
    (hS : ¬ (200 ≤ S ∧ S < 300)) :
    (c.create_profile env D).1
      = .error (.runtimeError ("Request failed: " ++ toString S ++ " " ++ B) S B) ∧
    (c.update_profile env P D).1
      = .error (.runtimeError ("Request failed: " ++ toString S ++ " " ++ B) S B) ∧
    (c.delete_profile env P).1
      = .error (.runtimeError ("Request failed: " ++ toString S ++ " " ++ B) S B) ∧
    (c.modify_assignments env P A).1
      = .error (.runtimeError ("Request failed: " ++ toString S ++ " " ++ B) S B) := by
  refine ⟨?_, ?_, ?_, ?_⟩ <;>
    simp [IntuneClient.create_profile, IntuneClient.update_profile,
      IntuneClient.delete_profile, IntuneClient.modify_assignments,
      IntuneClient._request, IntuneClient._headers, IntuneClient._get_token,
      urlopen, hc, hresp, hS, Except.map]

/-- Witness for C1 at status 404 with body "not found". -/
theorem non2xx_fails_with_request_failed_witness :
    (testClient.create_profile (constEnv 404 "not found") (Json.obj [])).1
      = .error (.runtimeError ("Request failed: " ++ toString 404 ++ " " ++ "not found")
          404 "not found") ∧
    (testClient.update_profile (constEnv 404 "not found") "123" (Json.obj [])).1
      = .error (.runtimeError ("Request failed: " ++ toString 404 ++ " " ++ "not found")
          404 "not found") ∧
    (testClient.delete_profile (constEnv 404 "not found") "123").1
      = .error (.runtimeError ("Request failed: " ++ toString 404 ++ " " ++ "not found")
          404 "not found") ∧
    (testClient.modify_assignments (constEnv 404 "not found") "123" (Json.obj [])).1
      = .error (.runtimeError ("Request failed: " ++ toString 404 ++ " " ++ "not found")
          404 "not found") :=
  non2xx_fails_with_request_failed testClient (constEnv 404 "not found") "tok"
    404 "not found" (Json.obj []) (Json.obj []) "123" rfl (fun _ => rfl) (by decide)

/-- Claim C2: for every credential whose token retrieval yields token string T,
the headers mapping built by `_headers` consists of exactly the two entries
Authorization ↦ "Bearer " ++ T and Content-Type ↦ "application/json". -/
theorem headers_exactly_bearer_and_content_type (c : IntuneClient ε)
    (T : String) (hc : c._credential [defaultScope] = .ok ⟨T⟩) :
    c._headers.1 = .ok [("Authorization", "Bearer " ++ T),
                        ("Content-Type", "application/json")] := by
  simp [IntuneClient._headers, IntuneClient._get_token, hc, Except.map]

/-- Witness for C2 with the token "tok". -/
theorem headers_exactly_bearer_and_content_type_witness :
    testClient._headers.1 = .ok [("Authorization", "Bearer " ++ "tok"),
                                 ("Content-Type", "application/json")] :=
  headers_exactly_bearer_and_content_type testClient "tok" rfl

/-- Claim C6: every `_request` whose transport answer has a 2xx status returns
the parsed JSON of the response body when that body is non-empty, and the
empty mapping when the body is empty. -/
theorem request_2xx_parses_body (c : IntuneClient ε) (env : Env) (T : String)
    (method url : String) (data : Option Json) (S : Nat) (B : String)
    (hc : c._credential [defaultScope] = .ok ⟨T⟩)
    (hresp : env.response ⟨url, data.map Json.dumps, method, bearerHeaders T⟩
      = (S, B))
    (hS : 200 ≤ S ∧ S < 300) :
    (c._request env method url data).1
      = if B = "" then .ok (Json.obj []) else .ok (env.jsonLoads B) := by
  rw [request_result c env T method url data S B hc hresp]
  simp [hS]

/-- Witness for C6: a 200 response with an empty body yields the empty
mapping. -/
theorem request_2xx_parses_body_witness :
    (testClient._request (constEnv 200 "") "GET" "https://unit.test/x" none).1
      = if "" = "" then .ok (Json.obj [])
        else .ok ((constEnv 200 "").jsonLoads "") :=
  request_2xx_parses_body testClient (constEnv 200 "") "tok" "GET"
    "https://unit.test/x" none 200 "" rfl rfl (by decide)

/-- Claim C7: an error raised by the credential during token acquisition
propagates unchanged from every public operation: the result is that very
credential error (not the request-failed `RuntimeError`), and no HTTP
request is performed. -/
theorem credential_error_propagates (c : IntuneClient ε) (env : Env)
    (e : ε) (D A : Json) (P : String)
    (hc : c._credential [defaultScope] = .error e) :
    c.create_profile env D
      = (.error (.credential e), [Event.tokenCall [defaultScope]]) ∧
    c.update_profile env P D
      = (.error (.credential e), [Event.tokenCall [defaultScope]]) ∧
    c.delete_profile env P
      = (.error (.credential e), [Event.tokenCall [defaultScope]]) ∧
    c.modify_assignments env P A
      = (.error (.credential e), [Event.tokenCall [defaultScope]]) := by
  refine ⟨?_, ?_, ?_, ?_⟩ <;>
    simp [IntuneClient.create_profile, IntuneClient.update_profile,
      IntuneClient.delete_profile, IntuneClient.modify_assignments,
      IntuneClient._request, IntuneClient._headers, IntuneClient._get_token,
      hc, Except.map]

/-- Witness for C7 with a credential failing with the error "boom". -/
theorem credential_error_propagates_witness :
    badClient.create_profile (constEnv 200 "") (Json.obj [])
      = (.error (.credential "boom"), [Event.tokenCall [defaultScope]]) ∧
    badClient.update_profile (constEnv 200 "") "123" (Json.obj [])
      = (.error (.credential "boom"), [Event.tokenCall [defaultScope]]) ∧
    badClient.delete_profile (constEnv 200 "") "123"
      = (.error (.credential "boom"), [Event.tokenCall [defaultScope]]) ∧
    badClient.modify_assignments (constEnv 200 "") "123" (Json.obj [])
      = (.error (.credential "boom"), [Event.tokenCall [defaultScope]]) :=
  credential_error_propagates badClient (constEnv 200 "") "boom"
    (Json.obj []) (Json.obj []) "123" rfl

/-- Serializing the empty JSON object gives the two-character brace string. -/
theorem dumps_empty_obj : Json.dumps (Json.obj []) = "\x7b\x7d" := rfl

/-- Claim C3: `create_profile D` performs exactly one HTTP request, a POST to
`<endpoint>/deviceManagement/deviceConfigurations` whose body is the JSON
serialization of D, and returns the parsed JSON of a 2xx response. -/
theorem create_profile_posts_and_parses (c : IntuneClient ε) (env : Env)
    (T : String) (D : Json) (S : Nat) (B : String)
    (hc : c._credential [defaultScope] = .ok ⟨T⟩)
    (hresp : env.response ⟨c._endpoint ++ "/deviceManagement/deviceConfigurations",
        some (Json.dumps D), "POST", bearerHeaders T⟩ = (S, B))
    (hS : 200 ≤ S ∧ S < 300) (hB : B ≠ "") :
    c.create_profile env D
      = (.ok (env.jsonLoads B),
         [Event.tokenCall [defaultScope],
          Event.httpCall ⟨c._endpoint ++ "/deviceManagement/deviceConfigurations",
            some (Json.dumps D), "POST", bearerHeaders T⟩]) := by
  unfold IntuneClient.create_profile
  refine Prod.ext ?_ ?_
  · rw [request_result c env T "POST"
      (c._endpoint ++ "/deviceManagement/deviceConfigurations") (some D) S B hc hresp]
    simp [hS, hB]
  · exact request_trace c env T "POST"
      (c._endpoint ++ "/deviceManagement/deviceConfigurations") (some D) hc

/-- Witness for C3 with payload containing one field and a 200 response. -/
theorem create_profile_posts_and_parses_witness :
    testClient.create_profile (constEnv 200 "resp") (Json.obj [("name", Json.str "p1")])
      = (.ok ((constEnv 200 "resp").jsonLoads "resp"),
         [Event.tokenCall [defaultScope],
          Event.httpCall ⟨testClient._endpoint ++ "/deviceManagement/deviceConfigurations",
            some (Json.dumps (Json.obj [("name", Json.str "p1")])), "POST",
            bearerHeaders "tok"⟩]) :=
  create_profile_posts_and_parses testClient (constEnv 200 "resp") "tok"
    (Json.obj [("name", Json.str "p1")]) 200 "resp" rfl rfl (by decide) (by decide)

/-- Claim C4: `delete_profile P` performs exactly one HTTP request, a DELETE
to `<endpoint>/deviceManagement/deviceConfigurations/<P>` with no body, and
on any 2xx response returns nothing, whatever the response body is. -/
theorem delete_profile_deletes_and_discards (c : IntuneClient ε) (env : Env)
    (T P : String) (S : Nat) (B : String)
    (hc : c._credential [defaultScope] = .ok ⟨T⟩)
    (hresp : env.response
        ⟨c._endpoint ++ "/deviceManagement/deviceConfigurations/" ++ P,
         none, "DELETE", bearerHeaders T⟩ = (S, B))
    (hS : 200 ≤ S ∧ S < 300) :
    c.delete_profile env P
      = (.ok (),
         [Event.tokenCall [defaultScope],
          Event.httpCall ⟨c._endpoint ++ "/deviceManagement/deviceConfigurations/" ++ P,
            none, "DELETE", bearerHeaders T⟩]) := by
  unfold IntuneClient.delete_profile
  refine Prod.ext ?_ ?_
  · show ((c._request env "DELETE"
      (c._endpoint ++ "/deviceManagement/deviceConfigurations/" ++ P) none).1.map
        (fun _ => ())) = .ok ()
    rw [request_result c env T "DELETE"
      (c._endpoint ++ "/deviceManagement/deviceConfigurations/" ++ P) none S B hc hresp]
    by_cases hB : B = "" <;> simp [hS, hB, Except.map]
  · show (c._request env "DELETE"
      (c._endpoint ++ "/deviceManagement/deviceConfigurations/" ++ P) none).2 = _
    exact request_trace c env T "DELETE"
      (c._endpoint ++ "/deviceManagement/deviceConfigurations/" ++ P) none hc

/-- Witness for C4 with profile id "123" and a 200 response whose body is
non-empty and nevertheless discarded. -/
theorem delete_profile_deletes_and_discards_witness :
    testClient.delete_profile (constEnv 200 "ignored body") "123"
      = (.ok (),
         [Event.tokenCall [defaultScope],
          Event.httpCall ⟨testClient._endpoint
              ++ "/deviceManagement/deviceConfigurations/" ++ "123",
            none, "DELETE", bearerHeaders "tok"⟩]) :=
  delete_profile_deletes_and_discards testClient (constEnv 200 "ignored body")
    "tok" "123" 200 "ignored body" rfl rfl (by decide)

/-- Claim C9: `modify_assignments P A` performs exactly one HTTP request, a
POST to `<endpoint>/deviceManagement/deviceConfigurations/<P>/assign` whose
body is the JSON serialization of A, and returns the parsed JSON response. -/
theorem modify_assignments_posts_and_parses (c : IntuneClient ε) (env : Env)
    (T P : String) (A : Json) (S : Nat) (B : String)
    (hc : c._credential [defaultScope] = .ok ⟨T⟩)
    (hresp : env.response
        ⟨c._endpoint ++ "/deviceManagement/deviceConfigurations/" ++ P ++ "/assign",
         some (Json.dumps A), "POST", bearerHeaders T⟩ = (S, B))
    (hS : 200 ≤ S ∧ S < 300) (hB : B ≠ "") :
    c.modify_assignments env P A
      = (.ok (env.jsonLoads B),
         [Event.tokenCall [defaultScope],
          Event.httpCall ⟨c._endpoint ++ "/deviceManagement/deviceConfigurations/"
              ++ P ++ "/assign",
            some (Json.dumps A), "POST", bearerHeaders T⟩]) := by
  unfold IntuneClient.modify_assignments
  refine Prod.ext ?_ ?_
  · rw [request_result c env T "POST"
      (c._endpoint ++ "/deviceManagement/deviceConfigurations/" ++ P ++ "/assign")
      (some A) S B hc hresp]
    simp [hS, hB]
  · exact request_trace c env T "POST"
      (c._endpoint ++ "/deviceManagement/deviceConfigurations/" ++ P ++ "/assign")
      (some A) hc

/-- Witness for C9 with profile id "123" and an assignments payload holding
one empty list member. -/
theorem modify_assignments_posts_and_parses_witness :
    testClient.modify_assignments (constEnv 200 "resp") "123"
        (Json.obj [("assignments", Json.arr [])])
      = (.ok ((constEnv 200 "resp").jsonLoads "resp"),
         [Event.tokenCall [defaultScope],
          Event.httpCall ⟨testClient._endpoint
              ++ "/deviceManagement/deviceConfigurations/" ++ "123" ++ "/assign",
            some (Json.dumps (Json.obj [("assignments", Json.arr [])])), "POST",
            bearerHeaders "tok"⟩]) :=
  modify_assignments_posts_and_parses testClient (constEnv 200 "resp") "tok" "123"
    (Json.obj [("assignments", Json.arr [])]) 200 "resp" rfl rfl (by decide) (by decide)

/-- Claim C8: each public operation performs exactly one token acquisition
for exactly one outbound HTTP request — nothing is cached across calls — and
the only scope ever requested is "https://graph.microsoft.com/.default". -/
theorem fresh_token_single_scope_per_request (c : IntuneClient ε) (env : Env)
    (T : String) (D A : Json) (P : String)
    (hc : c._credential [defaultScope] = .ok ⟨T⟩) :
    (tokenCallScopes (c.create_profile env D).2
        = [["https://graph.microsoft.com/.default"]]
      ∧ (httpCallReqs (c.create_profile env D).2).length = 1) ∧
    (tokenCallScopes (c.update_profile env P D).2
        = [["https://graph.microsoft.com/.default"]]
      ∧ (httpCallReqs (c.update_profile env P D).2).length = 1) ∧
    (tokenCallScopes (c.delete_profile env P).2
        = [["https://graph.microsoft.com/.default"]]
      ∧ (httpCallReqs (c.delete_profile env P).2).length = 1) ∧
    (tokenCallScopes (c.modify_assignments env P A).2
        = [["https://graph.microsoft.com/.default"]]
      ∧ (httpCallReqs (c.modify_assignments env P A).2).length = 1) := by
  have h1 := request_trace c env T "POST"
    (c._endpoint ++ "/deviceManagement/deviceConfigurations") (some D) hc
  have h2 := request_trace c env T "PATCH"
    (c._endpoint ++ "/deviceManagement/deviceConfigurations/" ++ P) (some D) hc
  have h3 := request_trace c env T "DELETE"
    (c._endpoint ++ "/deviceManagement/deviceConfigurations/" ++ P) none hc
  have h4 := request_trace c env T "POST"
    (c._endpoint ++ "/deviceManagement/deviceConfigurations/" ++ P ++ "/assign")
    (some A) hc
  refine ⟨⟨?_, ?_⟩, ⟨?_, ?_⟩, ⟨?_, ?_⟩, ⟨?_, ?_⟩⟩ <;>
    simp [IntuneClient.create_profile, IntuneClient.update_profile,
      IntuneClient.delete_profile, IntuneClient.modify_assignments,
      h1, h2, h3, h4, tokenCallScopes, httpCallReqs, defaultScope]

/-- Witness for C8 on all four operations at concrete inputs. -/
theorem fresh_token_single_scope_per_request_witness :
    (tokenCallScopes (testClient.create_profile (constEnv 200 "r") Json.null).2
        = [["https://graph.microsoft.com/.default"]]
      ∧ (httpCallReqs (testClient.create_profile (constEnv 200 "r") Json.null).2).length = 1) ∧
    (tokenCallScopes (testClient.update_profile (constEnv 200 "r") "123" Json.null).2
        = [["https://graph.microsoft.com/.default"]]
      ∧ (httpCallReqs (testClient.update_profile (constEnv 200 "r") "123" Json.null).2).length = 1) ∧
    (tokenCallScopes (testClient.delete_profile (constEnv 200 "r") "123").2
        = [["https://graph.microsoft.com/.default"]]
      ∧ (httpCallReqs (testClient.delete_profile (constEnv 200 "r") "123").2).length = 1) ∧
    (tokenCallScopes (testClient.modify_assignments (constEnv 200 "r") "123" Json.null).2
        = [["https://graph.microsoft.com/.default"]]
      ∧ (httpCallReqs (testClient.modify_assignments (constEnv 200 "r") "123" Json.null).2).length = 1) :=
  fresh_token_single_scope_per_request testClient (constEnv 200 "r") "tok"
    Json.null Json.null "123" rfl

/-- Claim C10: body presence is decided by the payload being absent, not
empty: with the empty mapping as payload, create, update and
modify-assignments still send the serialized body (the two-character brace
string), while delete, which passes no payload, sends no body. -/
theorem empty_mapping_still_sends_body (c : IntuneClient ε) (env : Env)
    (T P : String)
    (hc : c._credential [defaultScope] = .ok ⟨T⟩) :
    httpCallDatas (c.create_profile env (Json.obj [])).2 = [some "\x7b\x7d"] ∧
    httpCallDatas (c.update_profile env P (Json.obj [])).2 = [some "\x7b\x7d"] ∧
    httpCallDatas (c.modify_assignments env P (Json.obj [])).2 = [some "\x7b\x7d"] ∧
    httpCallDatas (c.delete_profile env P).2 = [none] := by
  have h1 := request_trace c env T "POST"
    (c._endpoint ++ "/deviceManagement/deviceConfigurations") (some (Json.obj [])) hc
  have h2 := request_trace c env T "PATCH"
    (c._endpoint ++ "/deviceManagement/deviceConfigurations/" ++ P)
    (some (Json.obj [])) hc
  have h3 := request_trace c env T "DELETE"
    (c._endpoint ++ "/deviceManagement/deviceConfigurations/" ++ P) none hc
  have h4 := request_trace c env T "POST"
    (c._endpoint ++ "/deviceManagement/deviceConfigurations/" ++ P ++ "/assign")
    (some (Json.obj [])) hc
  refine ⟨?_, ?_, ?_, ?_⟩ <;>
    simp [IntuneClient.create_profile, IntuneClient.update_profile,
      IntuneClient.delete_profile, IntuneClient.modify_assignments,
      h1, h2, h3, h4, httpCallDatas, httpCallReqs, dumps_empty_obj]

/-- Witness for C10 at concrete inputs. -/
theorem empty_mapping_still_sends_body_witness :
    httpCallDatas (testClient.create_profile (constEnv 200 "r") (Json.obj [])).2
      = [some "\x7b\x7d"] ∧
    httpCallDatas (testClient.update_profile (constEnv 200 "r") "123" (Json.obj [])).2
      = [some "\x7b\x7d"] ∧
    httpCallDatas (testClient.modify_assignments (constEnv 200 "r") "123" (Json.obj [])).2
      = [some "\x7b\x7d"] ∧
    httpCallDatas (testClient.delete_profile (constEnv 200 "r") "123").2 = [none] :=
  empty_mapping_still_sends_body testClient (constEnv 200 "r") "tok" "123" rfl

/-- Dropping a run of elements that the predicate maps to a single value a
from the right end decomposes the list into the stripped part followed by a
replicate of a. -/
theorem stripTrailing_split (p : α → Bool) (l : List α) (a : α)
    (ha : ∀ b, p b = true → b = a) :
    l = (l.reverse.dropWhile p).reverse
          ++ List.replicate (l.reverse.takeWhile p).length a := by
  have h1 : l.reverse.takeWhile p ++ l.reverse.dropWhile p = l.reverse :=
    List.takeWhile_append_dropWhile p l.reverse
  have h2 : l.reverse.takeWhile p
      = List.replicate (l.reverse.takeWhile p).length a :=
    List.eq_replicate_of_mem (fun b hb => ha b (List.mem_takeWhile_imp hb))
  calc l = l.reverse.reverse := (List.reverse_reverse l).symm
    _ = (l.reverse.takeWhile p ++ l.reverse.dropWhile p).reverse := by rw [h1]
    _ = (l.reverse.dropWhile p).reverse ++ (l.reverse.takeWhile p).reverse := by
          rw [List.reverse_append]
    _ = (l.reverse.dropWhile p).reverse
          ++ List.replicate (l.reverse.takeWhile p).length a := by
          rw [← h2, h2, List.reverse_replicate]

/-- Any string is its slash-stripped form followed by some run of slashes. -/
theorem rstripSlashes_split (s : String) :
    ∃ k, s = rstripSlashes s ++ String.mk (List.replicate k '/') := by
  obtain ⟨l⟩ := s
  refine ⟨(l.reverse.takeWhile (fun ch => ch == '/')).length, ?_⟩
  have h := stripTrailing_split (fun ch => ch == '/') l '/'
    (fun b hb => by simpa using hb)
  show String.mk l
      = String.mk ((l.reverse.dropWhile (fun ch => ch == '/')).reverse
          ++ List.replicate (l.reverse.takeWhile (fun ch => ch == '/')).length '/')
  exact congrArg String.mk h

/-- The slash-stripped form of a string never ends in a slash. -/
theorem rstripSlashes_no_trailing (s : String) :
    (rstripSlashes s).data.getLast? ≠ some '/' := by
  intro h
  have h1 : (s.data.reverse.dropWhile (fun ch => ch == '/')).head? = some '/' := by
    rw [← List.getLast?_reverse]
    exact h
  have h2 := head_dropWhile_false (fun ch => ch == '/') s.data.reverse '/' h1
  simp at h2

/-- Claim C5: the stored endpoint is the supplied endpoint with its trailing
slashes removed (the supplied string is the stored one followed by a run of
slashes, and the stored one does not end in a slash), and the URL of the one
request each public operation issues has the stored endpoint as prefix. -/
theorem endpoint_trailing_slashes_stripped
    (cred : List String → Except ε AccessToken) (E T P : String)
    (env : Env) (D A : Json)
    (hc : cred [defaultScope] = .ok ⟨T⟩) :
    (∃ k, E = (IntuneClient.init cred E)._endpoint
            ++ String.mk (List.replicate k '/')) ∧
    (IntuneClient.init cred E)._endpoint.data.getLast? ≠ some '/' ∧
    httpCallUrls ((IntuneClient.init cred E).create_profile env D).2
      = [(IntuneClient.init cred E)._endpoint
          ++ "/deviceManagement/deviceConfigurations"] ∧
    httpCallUrls ((IntuneClient.init cred E).update_profile env P D).2
      = [(IntuneClient.init cred E)._endpoint
          ++ "/deviceManagement/deviceConfigurations/" ++ P] ∧
    httpCallUrls ((IntuneClient.init cred E).delete_profile env P).2
      = [(IntuneClient.init cred E)._endpoint
          ++ "/deviceManagement/deviceConfigurations/" ++ P] ∧
    httpCallUrls ((IntuneClient.init cred E).modify_assignments env P A).2
      = [(IntuneClient.init cred E)._endpoint
          ++ "/deviceManagement/deviceConfigurations/" ++ P ++ "/assign"] := by
  have hcc : (IntuneClient.init cred E)._credential [defaultScope] = .ok ⟨T⟩ := hc
  have h1 := request_trace (IntuneClient.init cred E) env T "POST"
    ((IntuneClient.init cred E)._endpoint
      ++ "/deviceManagement/deviceConfigurations") (some D) hcc
  have h2 := request_trace (IntuneClient.init cred E) env T "PATCH"
    ((IntuneClient.init cred E)._endpoint
      ++ "/deviceManagement/deviceConfigurations/" ++ P) (some D) hcc
  have h3 := request_trace (IntuneClient.init cred E) env T "DELETE"
    ((IntuneClient.init cred E)._endpoint
      ++ "/deviceManagement/deviceConfigurations/" ++ P) none hcc
  have h4 := request_trace (IntuneClient.init cred E) env T "POST"
    ((IntuneClient.init cred E)._endpoint
      ++ "/deviceManagement/deviceConfigurations/" ++ P ++ "/assign") (some A) hcc
  refine ⟨rstripSlashes_split E, rstripSlashes_no_trailing E, ?_, ?_, ?_, ?_⟩ <;>
    simp [IntuneClient.create_profile, IntuneClient.update_profile,
      IntuneClient.delete_profile, IntuneClient.modify_assignments,
      h1, h2, h3, h4, httpCallUrls, httpCallReqs]

/-- Witness for C5 with an endpoint carrying two trailing slashes. -/
theorem endpoint_trailing_slashes_stripped_witness :
    (∃ k, "https://unit.test//"
        = (IntuneClient.init okCredential "https://unit.test//")._endpoint
            ++ String.mk (List.replicate k '/')) ∧
    (IntuneClient.init okCredential "https://unit.test//")._endpoint.data.getLast?
        ≠ some '/' ∧
    httpCallUrls ((IntuneClient.init okCredential "https://unit.test//").create_profile
        (constEnv 200 "r") Json.null).2
      = [(IntuneClient.init okCredential "https://unit.test//")._endpoint
          ++ "/deviceManagement/deviceConfigurations"] ∧
    httpCallUrls ((IntuneClient.init okCredential "https://unit.test//").update_profile
        (constEnv 200 "r") "123" Json.null).2
      = [(IntuneClient.init okCredential "https://unit.test//")._endpoint
          ++ "/deviceManagement/deviceConfigurations/" ++ "123"] ∧
    httpCallUrls ((IntuneClient.init okCredential "https://unit.test//").delete_profile
        (constEnv 200 "r") "123").2
      = [(IntuneClient.init okCredential "https://unit.test//")._endpoint
          ++ "/deviceManagement/deviceConfigurations/" ++ "123"] ∧
    httpCallUrls ((IntuneClient.init okCredential "https://unit.test//").modify_assignments
        (constEnv 200 "r") "123" Json.null).2
      = [(IntuneClient.init okCredential "https://unit.test//")._endpoint
          ++ "/deviceManagement/deviceConfigurations/" ++ "123" ++ "/assign"] :=
  endpoint_trailing_slashes_stripped okCredential "https://unit.test//" "tok" "123"
    (constEnv 200 "r") Json.null Json.null rfl
